import Mathlib

/-!
Verification of the snake-frontend client (Next.js / React / socket.io).

Shallow embedding of the client-side core:
* `useWebSocket` hook (connection state, `playerId`, `sendMove`)  — app/hooks/useWebSocket.ts
* `Home` page (death-detection effect, active-effect derivation,
  keyboard throttle)                                              — app/page.tsx
* `Game` page keyboard throttle                                   — app/game/page.tsx
* `EffectIndicator` countdown component                           — app/components/EffectIndicator.tsx
* `GameCanvas` render pipeline                                    — app/components/GameCanvas.tsx

Times are modelled as naturals (milliseconds, as `Date.now()` values);
JavaScript's `Math.max(0, a - b)` on such values coincides with truncated
natural subtraction.  Canvas drawing is modelled as the trace of canvas-API
calls (`DrawOp`) the render code issues, in issue order.
-/

namespace SnakeFrontend

/-! ## Data model (interfaces of useWebSocket.ts / GameCanvas.tsx) -/

/-- `type` field of an active effect: `'speedBoost' | 'slowDown'`. -/
inductive EffectType where
  | speedBoost
  | slowDown
deriving DecidableEq, Repr

/-- One entry of `activeEffects`: `{ type, endTime }` (absolute ms). -/
structure ActiveEffect where
  type : EffectType
  endTime : Nat
deriving DecidableEq, Repr

/-- A body segment `{ x, y }` in logical grid coordinates. -/
structure Pos where
  x : Int
  y : Int
deriving DecidableEq, Repr

/-- `interface Snake { id, body, alive, score, activeEffects }`. -/
structure Snake where
  id : String
  body : List Pos
  alive : Bool
  score : Int
  activeEffects : List ActiveEffect
deriving DecidableEq, Repr

/-- `type` field of a fruit: `'apple' | 'mango'`. -/
inductive FruitType where
  | apple
  | mango
deriving DecidableEq, Repr

/-- `interface Fruit { x, y, type }`. -/
structure Fruit where
  x : Int
  y : Int
  type : FruitType
deriving DecidableEq, Repr

/-- `status` field of the game state: `'lobby' | 'playing' | 'finished'`. -/
inductive GameStatus where
  | lobby
  | playing
  | finished
deriving DecidableEq, Repr

/-- `interface GameState { status, snakes, food, gameWidth, gameHeight }`. -/
structure GameState where
  status : GameStatus
  snakes : List Snake
  food : List Fruit
  gameWidth : Nat
  gameHeight : Nat
deriving DecidableEq, Repr

/-- A direction payload `{ dx, dy }`. -/
structure Direction where
  dx : Int
  dy : Int
deriving DecidableEq, Repr

/-! ## Input Controller (handleKeyDown of app/page.tsx 44-83 and
app/game/page.tsx 67-108; the two bodies are identical) -/

/-- `event.key.toLowerCase()` — character-wise lowercasing, stated over the
string's character list so that concrete inputs evaluate. -/
def lowerKey (s : String) : String :=
  ⟨s.data.map Char.toLower⟩

/-- The `switch (event.key.toLowerCase())` mapping from a raw key to a unit
direction vector; unmapped keys yield `none` (the handler returns). -/
def keyToDirection (key : String) : Option Direction :=
  let k := lowerKey key
  if k = "arrowup" ∨ k = "w" then some ⟨0, -1⟩
  else if k = "arrowdown" ∨ k = "s" then some ⟨0, 1⟩
  else if k = "arrowleft" ∨ k = "a" then some ⟨-1, 0⟩
  else if k = "arrowright" ∨ k = "d" then some ⟨1, 0⟩
  else none

/-- Local state read and written by `handleKeyDown`: the `lastKeyTime`
React state plus the log of `move` commands handed to `sendMove`. -/
structure InputState where
  lastKeyTime : Nat
  sent : List Direction
deriving DecidableEq, Repr

/-- `handleKeyDown`: drop the event when `now - lastKeyTime < 50`
(the minimum inter-command interval); otherwise map the key, ignore
unmapped keys, and for a mapped key send exactly one `move` command and
update `lastKeyTime` to `now`. -/
def handleKeyDown (now : Nat) (key : String) (st : InputState) : InputState :=
  if now - st.lastKeyTime < 50 then st
  else
    match keyToDirection key with
    | none => st
    | some d => { lastKeyTime := now, sent := st.sent ++ [d] }

/-! ## Connection Manager (useWebSocket.ts) -/

/-- State owned by the hook that `sendMove` reads: whether `socketRef.current`
is non-null, the `isConnected` React state, and the transport emission log. -/
structure SendState where
  socketPresent : Bool
  isConnected : Bool
  emitted : List (String × Direction)
deriving DecidableEq, Repr

/-- `sendMove` (useWebSocket.ts 81-88): emit `'move' { direction }` only when
the socket exists and `isConnected` holds; otherwise do nothing. -/
def sendMove (st : SendState) (direction : Direction) : SendState :=
  if st.socketPresent ∧ st.isConnected then
    { st with emitted := st.emitted ++ [("move", direction)] }
  else st

/-- Session state of the hook relevant to the connect/disconnect listeners. -/
structure WSState where
  isConnected : Bool
  playerId : Option String
deriving DecidableEq, Repr

/-- Transport-level events driving the listeners of useWebSocket.ts 123-165.
`connect` carries the value of `socket.id || null` (none when the id is
undefined). -/
inductive WSEv where
  | connect (sid : Option String)
  | disconnect
  | connectError
deriving DecidableEq, Repr

/-- The listeners: `connect` sets `isConnected := true` and
`playerId := socket.id || null`; `disconnect` sets `isConnected := false`
(and touches nothing else); `connect_error` has an empty handler body. -/
def wsStep (st : WSState) (ev : WSEv) : WSState :=
  match ev with
  | .connect sid => { isConnected := true, playerId := sid }
  | .disconnect => { st with isConnected := false }
  | .connectError => st

/-- Initial hook state: `isConnected = false`, `playerId = null`. -/
def wsInit : WSState := { isConnected := false, playerId := none }

/-- Run the listeners over a sequence of transport events. -/
def runWS (evs : List WSEv) : WSState :=
  evs.foldl wsStep wsInit

/-! ## State Reconciler (Home, app/page.tsx) -/

/-- The active-effect derivation of app/page.tsx 34-40: find the snake with
the local id; if it is alive and its `activeEffects` list is non-empty expose
`activeEffects[0]`, else expose `null`. -/
def deriveActiveEffect (snakes : List Snake) (pid : String) : Option ActiveEffect :=
  match snakes.find? (fun s => s.id = pid) with
  | some playerSnake =>
      if playerSnake.alive ∧ 0 < playerSnake.activeEffects.length then
        playerSnake.activeEffects.head?
      else none
  | none => none

/-- UI-local state of the `Home` component (app/page.tsx): the `showGame`
flag, the exposed `activeEffect`, the fire times (absolute ms) of every
`setTimeout(() => setShowGame(false), 1000)` currently scheduled — the source
never stores or clears these timer handles — and the previously observed
`gameState?.status` (the dependency of the first `useEffect`). -/
structure HomeState where
  showGame : Bool
  activeEffect : Option ActiveEffect
  pendingReverts : List Nat
  prevStatus : Option GameStatus
deriving DecidableEq, Repr

/-- Initial `Home` state: `showGame = false`, `activeEffect = null`,
no scheduled timers, no snapshot seen. -/
def homeInit : HomeState :=
  { showGame := false, activeEffect := none, pendingReverts := [], prevStatus := none }

/-- Fire every scheduled death-revert timer that is due at `now`:
each due `setTimeout` callback runs `setShowGame(false)`. -/
def fireReverts (now : Nat) (st : HomeState) : HomeState :=
  if st.pendingReverts.any (fun ft => ft ≤ now) then
    { st with showGame := false, pendingReverts := st.pendingReverts.filter (fun ft => now < ft) }
  else st

/-- Processing one arriving `gameState` snapshot at time `now`, i.e. the two
`useEffect`s of app/page.tsx run to quiescence.

First effect (lines 16-20, dependency `[gameState?.status]`): it re-runs only
when the status value changed, and sets `showGame := true` when the new status
is `'playing'`.

Second effect (lines 23-41): it re-runs on every snapshot (its dependency
`gameState?.snakes` is a fresh array each time); under the guard
`gameState && playerId && showGame` it (a) finds the local snake and, when the
snake is present and not alive, schedules `setTimeout(() => setShowGame(false),
1000)` — it returns no cleanup, so nothing ever cancels the timer — and
(b) updates `activeEffect` via `deriveActiveEffect`. -/
def processSnapshot (pid : Option String) (now : Nat) (gs : GameState) (st : HomeState) :
    HomeState :=
  let st1 :=
    if st.prevStatus ≠ some gs.status ∧ gs.status = GameStatus.playing then
      { st with showGame := true }
    else st
  let st2 := { st1 with prevStatus := some gs.status }
  match pid with
  | none => st2
  | some p =>
      if st2.showGame then
        let st3 :=
          match gs.snakes.find? (fun s => s.id = p) with
          | some playerSnake =>
              if playerSnake.alive then st2
              else { st2 with pendingReverts := st2.pendingReverts ++ [now + 1000] }
          | none => st2
        { st3 with activeEffect := deriveActiveEffect gs.snakes p }
      else st2

/-- An observable event at the `Home` component: a snapshot arriving at
time `now`, or the clock reaching `now` with no snapshot (letting due
timers fire). -/
inductive HomeEv where
  | snap (now : Nat) (gs : GameState)
  | elapse (now : Nat)
deriving DecidableEq, Repr

/-- One event step: due timers fire before a later snapshot is processed. -/
def homeStep (pid : Option String) (st : HomeState) (ev : HomeEv) : HomeState :=
  match ev with
  | .snap now gs => processSnapshot pid now gs (fireReverts now st)
  | .elapse now => fireReverts now st

/-- Run the `Home` component over an event sequence from the initial state. -/
def runHome (pid : Option String) (evs : List HomeEv) : HomeState :=
  evs.foldl (homeStep pid) homeInit

/-- A minimal `'playing'` snapshot containing exactly the local snake with the
given aliveness (used to state the death-revert claims). -/
def mkSnap (pid : String) (alive : Bool) : GameState :=
  { status := GameStatus.playing
    snakes := [{ id := pid, body := [⟨0, 0⟩], alive := alive, score := 0, activeEffects := [] }]
    food := []
    gameWidth := 100
    gameHeight := 60 }

/-! ## Effect Countdown Presenter (EffectIndicator.tsx) -/

/-- State of the `EffectIndicator` component: the `timeLeft` React state, the
current `effect` prop, and whether the 100ms `setInterval` is currently
registered. -/
structure EIState where
  timeLeft : Nat
  effectProp : Option ActiveEffect
  intervalActive : Bool
deriving DecidableEq, Repr

/-- `EffectIndicator` before any prop is supplied: `useState(0)`, no prop,
no interval. -/
def eiInit : EIState :=
  { timeLeft := 0, effectProp := none, intervalActive := false }

/-- The `useEffect` of EffectIndicator.tsx 201-219 on a change of the `effect`
prop: the previous interval is cleared; with a null effect `timeLeft` is reset
to 0 and no interval starts; with a non-null effect a fresh 100ms interval is
registered — `timeLeft` is NOT touched here, it only changes when the interval
first ticks. -/
def eiSetEffect (e : Option ActiveEffect) (st : EIState) : EIState :=
  match e with
  | none => { timeLeft := 0, effectProp := none, intervalActive := false }
  | some eff => { st with effectProp := some eff, intervalActive := true }

/-- One tick of `updateTimer` at wall-clock time `now` (EffectIndicator.tsx
207-216): `remaining = Math.max(0, effect.endTime - now)` (natural
subtraction), `timeLeft = Math.ceil(remaining / 1000)` — on a natural
`remaining` this is `(remaining + 999) / 1000` — and the interval
self-cancels when `remaining <= 0`. -/
def eiTick (now : Nat) (st : EIState) : EIState :=
  match st.effectProp, st.intervalActive with
  | some eff, true =>
      let remaining := eff.endTime - now
      let remainingSeconds := (remaining + 999) / 1000
      { st with timeLeft := remainingSeconds, intervalActive := 0 < remaining }
  | _, _ => st

/-- The render guard of EffectIndicator.tsx 221-223: the effect UI is visible
exactly when the `effect` prop is non-null and `timeLeft > 0`. -/
def eiVisible (st : EIState) : Bool :=
  st.effectProp.isSome && decide (0 < st.timeLeft)

/-- The progress-bar width of EffectIndicator.tsx 225:
`percentage = (timeLeft / 10) * 100` — a fixed nominal total of 10 seconds,
never the effect's actual granted duration. -/
def effectPercentage (timeLeft : Nat) : ℚ :=
  ((timeLeft : ℚ) / 10) * 100

/-! ## Render Engine (GameCanvas.tsx)

Drawing is modelled as the trace of canvas-API calls, in the order the source
issues them.  `CELL_SIZE = 12`. -/

/-- One canvas-API call with its arguments.  Style assignments
(`ctx.fillStyle = …` etc.) are recorded as explicit trace entries. -/
inductive DrawOp where
  | setFillStyle (style : String)
  | fillRect (x y w h : Int)
  | setStrokeStyle (style : String)
  | setLineWidth (width : ℚ)
  | beginPath
  | moveTo (x y : Int)
  | lineTo (x y : Int)
  | stroke
  | strokeRect (x y w h : Int)
  | setFont (font : String)
  | setTextAlign (align : String)
  | setTextBaseline (baseline : String)
  | fillText (text : String) (x y : Int)
deriving DecidableEq, Repr

/-- The call-site computation of GameCanvas.tsx 126:
`snake.id === playerId` (false when `playerId` is null). -/
def isLocalSnake (sn : Snake) (playerId : Option String) : Bool :=
  match playerId with
  | some p => sn.id = p
  | none => false

/-- The `forEach` callback of `drawSnake` (GameCanvas.tsx 147-160) applied to
one `(index, segment)` pair: fill the segment with `currentColor`, and on
`index === 0 && snake.alive` also stroke the darker head outline. -/
def segChunk (currentColor : String) (alive : Bool) (seg : Nat × Pos) : List DrawOp :=
  let x := seg.2.x * 12
  let y := seg.2.y * 12
  [DrawOp.setFillStyle currentColor, DrawOp.fillRect (x + 1) (y + 1) (12 - 2) (12 - 2)]
    ++ (if seg.1 = 0 ∧ alive then
          [DrawOp.setStrokeStyle "rgba(0,0,0,0.3)", DrawOp.setLineWidth 2,
           DrawOp.strokeRect (x + 1) (y + 1) (12 - 2) (12 - 2)]
        else [])

/-- `drawSnake` (GameCanvas.tsx 141-161): each body segment is filled with
`alive ? (isPlayer ? '#4CAF50' : '#2196F3') : '#666'`; the segment at
index 0 of a living snake additionally gets a dark outline
(`strokeRect`, line width 2). -/
def drawSnake (sn : Snake) (isPlayer : Bool) : List DrawOp :=
  let color := if isPlayer then "#4CAF50" else "#2196F3"
  let deadColor := "#666"
  let currentColor := if sn.alive then color else deadColor
  sn.body.enum.flatMap (segChunk currentColor sn.alive)

/-- The emoji table of `drawFood` (`fruitEmojis[fruit.type] || '🍎'`). -/
def fruitEmoji (t : FruitType) : String :=
  match t with
  | .apple => "🍎"
  | .mango => "🥭"

/-- `drawFood` (GameCanvas.tsx 169-183): centre of the cell, bold
`CELL_SIZE - 4 = 8` px font, centred emoji text. -/
def drawFood (f : Fruit) : List DrawOp :=
  let x := f.x * 12 + 12 / 2
  let y := f.y * 12 + 12 / 2
  [DrawOp.setFont "bold 8px Arial", DrawOp.setTextAlign "center",
   DrawOp.setTextBaseline "middle", DrawOp.fillText (fruitEmoji f.type) x y]

/-- The HUD line of `drawUI` for one snake:
`` `${prefix} - Score: ${snake.score} - ${statusText}` ``. -/
def hudText (sn : Snake) (isPlayer : Bool) : String :=
  let pfx := if isPlayer then "👤 Você" else "🤖 Jogador"
  let statusText := if sn.alive then "✓ Vivo" else "✗ Morto"
  pfx ++ " - Score: " ++ toString sn.score ++ " - " ++ statusText

/-- The `forEach` callback of `drawUI` (GameCanvas.tsx 203-215) applied to
one `(index, snake)` pair: set the own/other colour and draw one HUD line at
`x = 10`, `y = 20 + 25·index` (`yOffset` starts at 20 and grows by 25). -/
def uiChunk (playerId : Option String) (isn : Nat × Snake) : List DrawOp :=
  let isPlayer := isLocalSnake isn.2 playerId
  [DrawOp.setFillStyle (if isPlayer then "#4CAF50" else "#2196F3"),
   DrawOp.fillText (hudText isn.2 isPlayer) 10 (20 + 25 * (isn.1 : Int))]

/-- `drawUI` (GameCanvas.tsx 192-216): white bold 14px left-aligned header
state, then one text line per snake in snapshot order. -/
def drawUI (snakes : List Snake) (playerId : Option String) : List DrawOp :=
  [DrawOp.setFillStyle "#FFF", DrawOp.setFont "bold 14px Arial", DrawOp.setTextAlign "left"]
    ++ snakes.enum.flatMap (uiChunk playerId)

/-- `GAME_WIDTH = gameState?.gameWidth || 100` (JS falsiness: 0 falls back). -/
def effWidth (gs : GameState) : Nat :=
  if gs.gameWidth = 0 then 100 else gs.gameWidth

/-- `GAME_HEIGHT = gameState?.gameHeight || 60`. -/
def effHeight (gs : GameState) : Nat :=
  if gs.gameHeight = 0 then 60 else gs.gameHeight

/-- The full render `useEffect` of GameCanvas.tsx 92-132, as the trace of
canvas calls it issues.  `canvasAvailable` models `canvasRef.current` being
non-null and `ctxAvailable` models `getContext('2d')` succeeding; when either
is unavailable, or `gameState` is null, the effect returns before drawing
anything.  Otherwise: (1) background fill, (2) grid lines (vertical then
horizontal, pitch `CELL_SIZE = 12`), (3) food, (4) snakes, (5) HUD. -/
def renderOps (canvasAvailable : Bool) (gameState : Option GameState)
    (ctxAvailable : Bool) (playerId : Option String) : List DrawOp :=
  match canvasAvailable, gameState with
  | false, _ => []
  | true, none => []
  | true, some gs =>
      if ctxAvailable then
        let W := effWidth gs
        let H := effHeight gs
        ([DrawOp.setFillStyle "#1a1a1a",
          DrawOp.fillRect 0 0 ((W : Int) * 12) ((H : Int) * 12)]
          ++ ([DrawOp.setStrokeStyle "#444", DrawOp.setLineWidth (1 / 2)]
              ++ (List.range (W + 1)).flatMap (fun i =>
                  [DrawOp.beginPath, DrawOp.moveTo ((i : Int) * 12) 0,
                   DrawOp.lineTo ((i : Int) * 12) ((H : Int) * 12), DrawOp.stroke])
              ++ (List.range (H + 1)).flatMap (fun i =>
                  [DrawOp.beginPath, DrawOp.moveTo 0 ((i : Int) * 12),
                   DrawOp.lineTo ((W : Int) * 12) ((i : Int) * 12), DrawOp.stroke]))
          ++ gs.food.flatMap drawFood
          ++ gs.snakes.flatMap (fun sn => drawSnake sn (isLocalSnake sn playerId))
          ++ drawUI gs.snakes playerId)
      else []

/-- Stage 1 of the claimed draw order: the background fill. -/
def backgroundOps (W H : Nat) : List DrawOp :=
  [DrawOp.setFillStyle "#1a1a1a", DrawOp.fillRect 0 0 ((W : Int) * 12) ((H : Int) * 12)]

/-- Stage 2 of the claimed draw order: grid lines at fixed cell pitch 12. -/
def gridOps (W H : Nat) : List DrawOp :=
  [DrawOp.setStrokeStyle "#444", DrawOp.setLineWidth (1 / 2)]
    ++ (List.range (W + 1)).flatMap (fun i =>
        [DrawOp.beginPath, DrawOp.moveTo ((i : Int) * 12) 0,
         DrawOp.lineTo ((i : Int) * 12) ((H : Int) * 12), DrawOp.stroke])
    ++ (List.range (H + 1)).flatMap (fun i =>
        [DrawOp.beginPath, DrawOp.moveTo 0 ((i : Int) * 12),
         DrawOp.lineTo ((W : Int) * 12) ((i : Int) * 12), DrawOp.stroke])

/-- The fill styles set in a trace, in order. -/
def fillStylesOf (ops : List DrawOp) : List String :=
  ops.filterMap (fun op =>
    match op with
    | .setFillStyle s => some s
    | _ => none)

/-- The `strokeRect` calls of a trace (arguments only), in order. -/
def strokeRectsOf (ops : List DrawOp) : List (Int × Int × Int × Int) :=
  ops.filterMap (fun op =>
    match op with
    | .strokeRect x y w h => some (x, y, w, h)
    | _ => none)

/-- The `fillText` calls of a trace (text and position), in order. -/
def fillTextsOf (ops : List DrawOp) : List (String × Int × Int) :=
  ops.filterMap (fun op =>
    match op with
    | .fillText t x y => some (t, x, y)
    | _ => none)

/-! ## Helper lemmas -/

theorem fillStylesOf_append (a b : List DrawOp) :
    fillStylesOf (a ++ b) = fillStylesOf a ++ fillStylesOf b := by
  simp [fillStylesOf, List.filterMap_append]

theorem strokeRectsOf_append (a b : List DrawOp) :
    strokeRectsOf (a ++ b) = strokeRectsOf a ++ strokeRectsOf b := by
  simp [strokeRectsOf, List.filterMap_append]

theorem fillTextsOf_append (a b : List DrawOp) :
    fillTextsOf (a ++ b) = fillTextsOf a ++ fillTextsOf b := by
  simp [fillTextsOf, List.filterMap_append]

theorem fillStylesOf_segChunk (c : String) (al : Bool) (seg : Nat × Pos) :
    fillStylesOf (segChunk c al seg) = [c] := by
  by_cases h : seg.1 = 0 ∧ al = true <;>
    simp [segChunk, fillStylesOf, h]

theorem strokeRectsOf_segChunk (c : String) (al : Bool) (i : Nat) (p : Pos) :
    strokeRectsOf (segChunk c al (i, p)) =
      if i = 0 ∧ al = true then [(p.x * 12 + 1, p.y * 12 + 1, (10 : Int), (10 : Int))]
      else [] := by
  by_cases h : i = 0 ∧ al = true <;>
    simp [segChunk, strokeRectsOf, h]

theorem fillStylesOf_flatMap_segChunk (c : String) (al : Bool) (l : List (Nat × Pos)) :
    fillStylesOf (l.flatMap (segChunk c al)) = l.map (fun _ => c) := by
  induction l with
  | nil => rfl
  | cons hd tl ih =>
      rw [List.flatMap_cons, fillStylesOf_append, fillStylesOf_segChunk, ih]
      rfl

theorem strokeRectsOf_flatMap_enumFrom (c : String) (al : Bool) (n : Nat) (l : List Pos) :
    strokeRectsOf ((List.enumFrom (n + 1) l).flatMap (segChunk c al)) = [] := by
  induction l generalizing n with
  | nil => rfl
  | cons hd tl ih =>
      rw [List.enumFrom_cons, List.flatMap_cons, strokeRectsOf_append,
        strokeRectsOf_segChunk]
      simp only [Nat.succ_ne_zero, false_and, if_false, List.nil_append]
      exact ih (n + 1)

theorem map_const_eq_replicate {α β : Type} (l : List α) (c : β) :
    l.map (fun _ => c) = List.replicate l.length c := by
  induction l with
  | nil => rfl
  | cons hd tl ih => simp [List.replicate_succ, ih]

theorem fillTextsOf_uiChunk (pid : Option String) (isn : Nat × Snake) :
    fillTextsOf (uiChunk pid isn) =
      [(hudText isn.2 (isLocalSnake isn.2 pid), (10 : Int), 20 + 25 * (isn.1 : Int))] := by
  simp [uiChunk, fillTextsOf]

theorem fillTextsOf_flatMap_uiChunk (pid : Option String) (l : List (Nat × Snake)) :
    fillTextsOf (l.flatMap (uiChunk pid)) =
      l.map (fun isn =>
        (hudText isn.2 (isLocalSnake isn.2 pid), (10 : Int), 20 + 25 * (isn.1 : Int))) := by
  induction l with
  | nil => rfl
  | cons hd tl ih =>
      rw [List.flatMap_cons, fillTextsOf_append, fillTextsOf_uiChunk, ih]
      rfl

theorem strokeRectsOf_flatMap_dead (c : String) (l : List (Nat × Pos)) :
    strokeRectsOf (l.flatMap (segChunk c false)) = [] := by
  induction l with
  | nil => rfl
  | cons hd tl ih =>
      obtain ⟨i, p⟩ := hd
      rw [List.flatMap_cons, strokeRectsOf_append, strokeRectsOf_segChunk, ih]
      simp

theorem strokeRectsOf_drawSnake (sn : Snake) (ip : Bool) :
    strokeRectsOf (drawSnake sn ip) =
      (if sn.alive = true then
        (sn.body.head?.map
          (fun p => (p.x * 12 + 1, p.y * 12 + 1, (10 : Int), (10 : Int)))).toList
      else []) := by
  cases hb : sn.body with
  | nil =>
      cases ha : sn.alive <;>
        simp [drawSnake, hb, ha, strokeRectsOf, List.enum, List.enumFrom]
  | cons p rest =>
      cases ha : sn.alive
      · simp only [drawSnake, hb, ha, if_false, Bool.false_eq_true]
        rw [strokeRectsOf_flatMap_dead]
      · simp only [drawSnake, hb, ha, if_true]
        rw [List.enum, List.enumFrom, List.flatMap_cons, strokeRectsOf_append,
          strokeRectsOf_segChunk, strokeRectsOf_flatMap_enumFrom]
        simp

theorem isLocalSnake_eq_decide (sn : Snake) (pid : Option String) :
    isLocalSnake sn pid = decide (pid = some sn.id) := by
  cases pid with
  | none => simp [isLocalSnake]
  | some p =>
      by_cases h : sn.id = p
      · subst h
        simp [isLocalSnake]
      · simp [isLocalSnake, h, eq_comm]
        exact fun hh => h hh.symm

/-! ## Claim theorems -/

/-- C2, counterexample.  The claim says the local identifier is cleared (set
back to null) on every transition into Disconnected.  In the code the
`disconnect` listener only sets `isConnected := false`; after the run
`connect("abc")` then `disconnect` the session is Disconnected yet `playerId`
is still `"abc"`, not null. -/
theorem C2_counterexample :
    (runWS [WSEv.connect (some "abc"), WSEv.disconnect]).isConnected = false ∧
    (runWS [WSEv.connect (some "abc"), WSEv.disconnect]).playerId = some "abc" := by
  exact ⟨rfl, rfl⟩

/-- C2, amended: the local identifier is assigned on every transition into
Connected (set to `socket.id || null`), and a transition into Disconnected
clears only the connected flag — the identifier retains its previous value
and is never reset to null. -/
theorem C2_localId_lifecycle (st : WSState) (sid : Option String) :
    (wsStep st (WSEv.connect sid)).playerId = sid ∧
    (wsStep st (WSEv.connect sid)).isConnected = true ∧
    (wsStep st WSEv.disconnect).playerId = st.playerId ∧
    (wsStep st WSEv.disconnect).isConnected = false :=
  ⟨rfl, rfl, rfl, rfl⟩

/-- C4: a key event mapping to a valid direction arriving less than 50ms
after the last accepted event is discarded (state unchanged, no `move`
sent); otherwise exactly one `move` command is sent and `lastKeyTime` is
updated to the event's timestamp. -/
theorem C4_input_throttle (now : Nat) (key : String) (st : InputState) (d : Direction)
    (hmap : keyToDirection key = some d) :
    (now - st.lastKeyTime < 50 → handleKeyDown now key st = st) ∧
    (50 ≤ now - st.lastKeyTime →
      (handleKeyDown now key st).sent = st.sent ++ [d] ∧
      (handleKeyDown now key st).lastKeyTime = now) := by
  constructor
  · intro h
    simp [handleKeyDown, h]
  · intro h
    have h' : ¬ now - st.lastKeyTime < 50 := by omega
    simp [handleKeyDown, h', hmap]

/-- C4, witness: from `lastKeyTime = 0`, a `w` event at t=30 is dropped and a
`w` event at t=60 is accepted. -/
theorem C4_input_throttle_witness :
    handleKeyDown 30 "w" { lastKeyTime := 0, sent := [] } =
      { lastKeyTime := 0, sent := [] } ∧
    (handleKeyDown 60 "w" { lastKeyTime := 0, sent := [] }).sent =
      [] ++ [{ dx := 0, dy := -1 }] := by
  have h30 := C4_input_throttle 30 "w" { lastKeyTime := 0, sent := [] }
    { dx := 0, dy := -1 } (by decide)
  have h60 := C4_input_throttle 60 "w" { lastKeyTime := 0, sent := [] }
    { dx := 0, dy := -1 } (by decide)
  exact ⟨h30.1 (by decide), (h60.2 (by decide)).1⟩

/-- C5: calling `sendMove` while `isConnected` is false leaves the state
(including the transport emission log) unchanged — the command is neither
emitted nor buffered anywhere, and the total Lean function cannot throw. -/
theorem C5_send_disconnected_noop (st : SendState) (d : Direction)
    (h : st.isConnected = false) :
    sendMove st d = st := by
  simp [sendMove, h]

/-- C5, witness: sending `{dx := 1, dy := 0}` with a present socket but a
disconnected session changes nothing. -/
theorem C5_send_disconnected_noop_witness :
    sendMove { socketPresent := true, isConnected := false, emitted := [] }
      { dx := 1, dy := 0 } =
      { socketPresent := true, isConnected := false, emitted := [] } :=
  C5_send_disconnected_noop
    { socketPresent := true, isConnected := false, emitted := [] }
    { dx := 1, dy := 0 } rfl

/-- C6: after processing a snapshot the exposed active effect is
`activeEffects[0]` of the local snake when that snake is present, alive and
has a non-empty effect list; when the snake is dead, has no effects, or is
absent, the exposed effect is null. -/
theorem C6_active_effect (snakes : List Snake) (p : String) :
    (∀ sn, snakes.find? (fun s => s.id = p) = some sn →
      (sn.alive = true → ∀ e es, sn.activeEffects = e :: es →
          deriveActiveEffect snakes p = some e) ∧
      (sn.alive = false → deriveActiveEffect snakes p = none) ∧
      (sn.activeEffects = [] → deriveActiveEffect snakes p = none)) ∧
    (snakes.find? (fun s => s.id = p) = none → deriveActiveEffect snakes p = none) := by
  constructor
  · intro sn hfind
    refine ⟨?_, ?_, ?_⟩
    · intro halive e es heff
      simp [deriveActiveEffect, hfind, halive, heff]
    · intro hdead
      simp [deriveActiveEffect, hfind, hdead]
    · intro hempty
      simp [deriveActiveEffect, hfind, hempty]
  · intro hnone
    simp [deriveActiveEffect, hnone]

/-- C6, witness: a present, alive local snake with effect list
`[{speedBoost, 5000}]` exposes that first effect. -/
theorem C6_active_effect_witness :
    deriveActiveEffect
      [{ id := "p", body := [], alive := true, score := 0,
         activeEffects := [{ type := EffectType.speedBoost, endTime := 5000 }] }] "p" =
      some { type := EffectType.speedBoost, endTime := 5000 } := by
  have h := (C6_active_effect
    [{ id := "p", body := [], alive := true, score := 0,
       activeEffects := [{ type := EffectType.speedBoost, endTime := 5000 }] }] "p").1
    { id := "p", body := [], alive := true, score := 0,
      activeEffects := [{ type := EffectType.speedBoost, endTime := 5000 }] } (by decide)
  exact h.1 rfl { type := EffectType.speedBoost, endTime := 5000 } [] rfl

/-- C10: when the canvas element is unavailable, the snapshot is null, or the
2d context is unavailable, the render effect issues no draw operation at all
(it is a total function returning the empty trace, so it cannot raise). -/
theorem C10_null_guard :
    (∀ gameState ctxAvailable pid, renderOps false gameState ctxAvailable pid = []) ∧
    (∀ canvasAvailable ctxAvailable pid,
      renderOps canvasAvailable none ctxAvailable pid = []) ∧
    (∀ gs pid, renderOps true (some gs) false pid = []) := by
  refine ⟨fun gameState ctxAvailable pid => ?_, fun ca ctxAvailable pid => ?_, fun gs pid => ?_⟩
  · cases gameState <;> rfl
  · cases ca <;> rfl
  · rfl

/-- C1, counterexample.  The claim says that when a superseding snapshot with
`alive == true` arrives before the 1000ms delay elapses, the pending revert is
cancelled and the flag never becomes false from that stale timer.  The
death-detection `useEffect` (app/page.tsx 23-41) returns no cleanup and never
stores the `setTimeout` handle, so nothing cancels the timer: after the local
player dies at t=10, revives at t=500, the stale timer still fires at t=1010
and flips `showGame` to false.  Just before that instant the flag is still
true, so the revert comes precisely from the stale timer. -/
theorem C1_counterexample :
    (runHome (some "p")
      [HomeEv.snap 0 (mkSnap "p" true), HomeEv.snap 10 (mkSnap "p" false),
       HomeEv.snap 500 (mkSnap "p" true), HomeEv.elapse 1009]).showGame = true ∧
    (runHome (some "p")
      [HomeEv.snap 0 (mkSnap "p" true), HomeEv.snap 10 (mkSnap "p" false),
       HomeEv.snap 500 (mkSnap "p" true), HomeEv.elapse 1010]).showGame = false := by
  exact ⟨by decide, by decide⟩

/-- C1, amended: after the local player's `alive` flips to false at t₁ while
the game view is showing, `showGame` stays true strictly before t₁ + 1000 and
is false once t₁ + 1000 has elapsed; but a superseding snapshot with
`alive == true` arriving at t₂ < t₁ + 1000 does NOT cancel the pending
revert — the stale timer still fires and `showGame` becomes false anyway. -/
theorem C1_death_revert (pid : String) (t1 t2 t3 : Nat)
    (h12 : t1 < t2) (h2 : t2 < t1 + 1000) (h3 : t1 + 1000 ≤ t3) :
    (runHome (some pid)
      [HomeEv.snap 0 (mkSnap pid true), HomeEv.snap t1 (mkSnap pid false),
       HomeEv.elapse t2]).showGame = true ∧
    (runHome (some pid)
      [HomeEv.snap 0 (mkSnap pid true), HomeEv.snap t1 (mkSnap pid false),
       HomeEv.elapse t3]).showGame = false ∧
    (runHome (some pid)
      [HomeEv.snap 0 (mkSnap pid true), HomeEv.snap t1 (mkSnap pid false),
       HomeEv.snap t2 (mkSnap pid true), HomeEv.elapse t3]).showGame = false := by
  have hno2 : ¬ t1 + 1000 ≤ t2 := by omega
  have hno1 : ¬ t1 + 1000 ≤ t1 := by omega
  refine ⟨?_, ?_, ?_⟩ <;>
    simp [runHome, homeStep, processSnapshot, fireReverts, homeInit, mkSnap,
      deriveActiveEffect, List.find?, hno1, hno2, h3]

/-- C1, witness for the amended statement at `pid = "p"`, death at t=10,
supersede at t=500, check at t=1010. -/
theorem C1_death_revert_witness :
    (runHome (some "p")
      [HomeEv.snap 0 (mkSnap "p" true), HomeEv.snap 10 (mkSnap "p" false),
       HomeEv.elapse 500]).showGame = true ∧
    (runHome (some "p")
      [HomeEv.snap 0 (mkSnap "p" true), HomeEv.snap 10 (mkSnap "p" false),
       HomeEv.elapse 1010]).showGame = false ∧
    (runHome (some "p")
      [HomeEv.snap 0 (mkSnap "p" true), HomeEv.snap 10 (mkSnap "p" false),
       HomeEv.snap 500 (mkSnap "p" true), HomeEv.elapse 1010]).showGame = false :=
  C1_death_revert "p" 10 500 1010 (by norm_num) (by norm_num) (by norm_num)

/-- C3, counterexample.  The claim says that when the exposed effect switches
from null to non-null the effect UI is shown immediately, with no tick delay.
In `EffectIndicator` the `useEffect` only registers a 100ms `setInterval` and
does not touch `timeLeft`; the render guard hides the UI while
`timeLeft <= 0`, so immediately after the switch (prop non-null, `timeLeft`
still 0) the UI is NOT visible — it appears only at the first tick. -/
theorem C3_counterexample :
    (eiSetEffect (some { type := EffectType.speedBoost, endTime := 5000 }) eiInit).effectProp =
      some { type := EffectType.speedBoost, endTime := 5000 } ∧
    eiVisible (eiSetEffect (some { type := EffectType.speedBoost, endTime := 5000 }) eiInit) =
      false := by
  exact ⟨rfl, rfl⟩

/-- C3, amended: switching from non-null to null hides the effect UI
immediately (the render guard keys on the prop itself); switching from null
to non-null does NOT show it immediately — the UI stays hidden until the
first 100ms interval tick, at which point it becomes visible provided the
effect has not yet expired. -/
theorem C3_effect_visibility (st : EIState) (e : ActiveEffect) (now : Nat)
    (h : now < e.endTime) :
    eiVisible (eiSetEffect none st) = false ∧
    eiVisible (eiSetEffect (some e) eiInit) = false ∧
    eiVisible (eiTick now (eiSetEffect (some e) eiInit)) = true := by
  refine ⟨rfl, rfl, ?_⟩
  have hrem : 0 < e.endTime - now := by omega
  simp [eiVisible, eiTick, eiSetEffect, eiInit]
  omega

/-- C3, witness for the amended statement: effect expiring at t=5000,
first tick at t=100. -/
theorem C3_effect_visibility_witness :
    eiVisible (eiSetEffect none eiInit) = false ∧
    eiVisible (eiSetEffect (some { type := EffectType.speedBoost, endTime := 5000 }) eiInit) =
      false ∧
    eiVisible (eiTick 100
      (eiSetEffect (some { type := EffectType.speedBoost, endTime := 5000 }) eiInit)) = true :=
  C3_effect_visibility eiInit { type := EffectType.speedBoost, endTime := 5000 } 100
    (by norm_num)

/-- C7: on a countdown tick at time `now` for the effect `eff`, the displayed
value `timeLeft` is exactly the number of whole seconds obtained by rounding
`remaining = max(0, eff.endTime - now)` up (the two inequalities pin
`timeLeft` to `⌈remaining / 1000⌉`), and the bar percentage is
`timeLeft / 10 * 100` — the fixed nominal 10-second total, independent of the
effect's actual granted duration. -/
theorem C7_countdown (st : EIState) (eff : ActiveEffect) (now : Nat)
    (h1 : st.effectProp = some eff) (h2 : st.intervalActive = true) :
    eff.endTime - now ≤ 1000 * (eiTick now st).timeLeft ∧
    1000 * (eiTick now st).timeLeft < (eff.endTime - now) + 1000 ∧
    effectPercentage ((eiTick now st).timeLeft) =
      (((eiTick now st).timeLeft : ℚ) / 10) * 100 := by
  obtain ⟨tL, ep, ia⟩ := st
  cases h1
  cases h2
  have hq := Nat.div_add_mod (eff.endTime - now + 999) 1000
  have hm : (eff.endTime - now + 999) % 1000 < 1000 := Nat.mod_lt _ (by norm_num)
  refine ⟨?_, ?_, rfl⟩ <;>
    · simp only [eiTick]
      omega

/-- C7, witness: effect expiring at t=5000, tick at t=100: `timeLeft = 5`,
`4900 ≤ 5000 < 5900`, percentage formula as claimed. -/
theorem C7_countdown_witness :
    (5000 : Nat) - 100 ≤
      1000 * (eiTick 100 ⟨0, some ⟨EffectType.speedBoost, 5000⟩, true⟩).timeLeft ∧
    1000 * (eiTick 100 ⟨0, some ⟨EffectType.speedBoost, 5000⟩, true⟩).timeLeft <
      ((5000 : Nat) - 100) + 1000 ∧
    effectPercentage ((eiTick 100 ⟨0, some ⟨EffectType.speedBoost, 5000⟩, true⟩).timeLeft) =
      (((eiTick 100 ⟨0, some ⟨EffectType.speedBoost, 5000⟩, true⟩).timeLeft : ℚ) / 10) * 100 :=
  C7_countdown ⟨0, some ⟨EffectType.speedBoost, 5000⟩, true⟩
    ⟨EffectType.speedBoost, 5000⟩ 100 rfl rfl

/-- C8: a snake's segments are filled with the single dead colour `#666`
whenever `alive == false`, regardless of id; a living snake whose id equals
the local id is filled `#4CAF50`, any other living snake `#2196F3`; and the
`strokeRect` head outline is drawn exactly for the index-0 segment of a
living snake — dead snakes get none. -/
theorem C8_snake_colors (sn : Snake) (pid : Option String) :
    fillStylesOf (drawSnake sn (isLocalSnake sn pid)) =
      sn.body.map (fun _ =>
        if sn.alive = false then "#666"
        else if pid = some sn.id then "#4CAF50" else "#2196F3") ∧
    strokeRectsOf (drawSnake sn (isLocalSnake sn pid)) =
      (if sn.alive = true then
        (sn.body.head?.map
          (fun p => (p.x * 12 + 1, p.y * 12 + 1, (10 : Int), (10 : Int)))).toList
      else []) := by
  refine ⟨?_, strokeRectsOf_drawSnake sn (isLocalSnake sn pid)⟩
  simp only [drawSnake]
  rw [fillStylesOf_flatMap_segChunk, map_const_eq_replicate, map_const_eq_replicate,
    List.enum_length]
  congr 1
  rw [isLocalSnake_eq_decide]
  by_cases hp : pid = some sn.id <;> cases ha : sn.alive <;> simp [hp, ha]

/-- C9: for a non-null snapshot with an available canvas and context, the
render trace is exactly background fill, then grid lines at cell pitch 12,
then items (food), then snakes, then HUD text; and the HUD stage draws
exactly one text line per player, in snapshot order, at `y = 20 + 25·index`. -/
theorem C9_draw_order (gs : GameState) (pid : Option String) :
    renderOps true (some gs) true pid =
      backgroundOps (effWidth gs) (effHeight gs) ++
      gridOps (effWidth gs) (effHeight gs) ++
      gs.food.flatMap drawFood ++
      gs.snakes.flatMap (fun sn => drawSnake sn (isLocalSnake sn pid)) ++
      drawUI gs.snakes pid ∧
    fillTextsOf (drawUI gs.snakes pid) =
      gs.snakes.enum.map (fun isn =>
        (hudText isn.2 (isLocalSnake isn.2 pid), (10 : Int), 20 + 25 * (isn.1 : Int))) := by
  constructor
  · simp [renderOps, backgroundOps, gridOps, List.append_assoc]
  · rw [drawUI, fillTextsOf_append, fillTextsOf_flatMap_uiChunk]
    rw [show fillTextsOf
        [DrawOp.setFillStyle "#FFF", DrawOp.setFont "bold 14px Arial",
         DrawOp.setTextAlign "left"] = [] from rfl]
    rw [List.nil_append]

end SnakeFrontend
